import Mathlib

/-!
Verification of `scripts/midi_serial_bridge.py`: a shallow embedding of the
bridge program.  The program parses arguments, optionally lists MIDI input
ports, opens a serial port and a MIDI input port, then runs a polling loop
forwarding every non-meta MIDI message's wire bytes to the serial port,
closing both resources in a `finally` block.

The embedding models a run as a trace of observable events (prints, resource
opens/closes, serial writes) together with the list of MIDI messages read
from the input port and the way the process terminated.  External
nondeterminism (whether each open succeeds, which messages `iter_pending`
returns at each loop iteration, when SIGINT/SIGTERM arrives, whether a poll
raises an exception) is supplied by an `Env` value.
-/

/-- A MIDI message as seen through `mido`: whether it is a meta message
(`msg.is_meta`) and its wire bytes (`msg.bytes()`). -/
structure MidiMsg where
  is_meta : Bool
  bytes : List Nat
deriving DecidableEq, Repr

/-- Parsed command-line arguments, mirroring the `argparse` declarations:
positional optional `serial_port`, `--midi-port` (default `None`),
`--list` flag, `--baud` (default 115200). -/
structure Args where
  serial_port : Option String
  midi_port : Option String
  list : Bool
  baud : Nat
deriving DecidableEq, Repr

/-- Argument parsing: applies the `argparse` defaults, in particular
`--baud` defaults to 115200 when not supplied. -/
def parseArgs (serial_port : Option String) (midi_port : Option String)
    (listFlag : Bool) (baud : Option Nat) : Args :=
  { serial_port := serial_port
    midi_port := midi_port
    list := listFlag
    baud := baud.getD 115200 }

/-- One iteration of the polling loop, as scheduled by the environment:
whether a SIGINT/SIGTERM was delivered before the `while running` check of
this iteration, and the outcome of `midi_in.iter_pending()` — either the
pending messages, or an exception raised by the poll (which propagates to
the `finally` block). -/
structure LoopIter where
  signalBefore : Bool
  poll : Except Unit (List MidiMsg)
deriving Repr

/-- The environment a run interacts with: the names returned by
`mido.get_input_names()`, whether `serial.Serial(...)` succeeds, whether
`mido.open_input(...)` succeeds, and the schedule of loop iterations. -/
structure Env where
  midiPortNames : List String
  serialOk : Bool
  midiOk : Bool
  iters : List LoopIter
deriving Repr

/-- Observable events of a run. -/
inductive Event where
  | print (s : String)
  | printErr (s : String)
  | printHelp
  | serialOpen (port : String) (baud : Nat)
  | midiOpen (name : String) (virtual : Bool)
  | serialWrite (bs : List Nat)
  | midiClose
  | serialClose
deriving DecidableEq, Repr

/-- How the process terminated: `main` returned normally, `sys.exit(n)` was
called, or an exception propagated out of the loop (past the `finally`). -/
inductive ExitStatus where
  | normal
  | exitCode (n : Nat)
  | exn
deriving DecidableEq, Repr

/-- How the forwarding loop was left: the `while running` condition became
false, or an exception was raised inside the loop. -/
inductive LoopExit where
  | stopped
  | exn
deriving DecidableEq, Repr

/-- Result of the forwarding loop: the events it produced, the MIDI
messages it read from the input port, and how it exited. -/
structure LoopResult where
  events : List Event
  received : List MidiMsg
  exit : LoopExit
deriving DecidableEq, Repr

/-- The body of the `for msg in midi_in.iter_pending()` loop: a meta
message is skipped (`continue`), any other message's bytes are written to
the serial port (`ser.write(bytes(msg.bytes()))`). -/
def batchEvents : List MidiMsg → List Event
  | [] => []
  | m :: ms =>
      (if m.is_meta then [] else [Event.serialWrite m.bytes]) ++ batchEvents ms

/-- `VIRTUAL_PORT_NAME` from the source. -/
def VIRTUAL_PORT_NAME : String := "MicroRack MIDI Bridge"

/-- The signal handler `stop`: whatever the signal number and the current
value of `running`, it sets `running` to `False`. -/
def stop (_signum : Nat) (_running : Bool) : Bool :=
  false

/-- The `while running:` polling loop.  Each scheduled iteration first
accounts for a possibly-delivered signal (the handler sets `running` to
false, so the `while` check fails and the loop exits), then polls
`iter_pending`: an exception leaves the loop exceptionally, otherwise the
batch is forwarded and the loop continues.  `none` means the schedule ran
out while the loop was still running (the run is not finished within the
modeled trace). -/
def runLoop : Bool → List LoopIter → Option LoopResult
  | false, _ =>
      some { events := [], received := [], exit := LoopExit.stopped }
  | true, [] => none
  | true, it :: rest =>
      if it.signalBefore then
        some { events := [], received := [], exit := LoopExit.stopped }
      else
        match it.poll with
        | Except.error _ =>
            some { events := [], received := [], exit := LoopExit.exn }
        | Except.ok msgs =>
            (runLoop true rest).map fun res =>
              { events := batchEvents msgs ++ res.events
                received := msgs ++ res.received
                exit := res.exit }

/-- Result of a whole run of `main`. -/
structure RunResult where
  events : List Event
  received : List MidiMsg
  exit : ExitStatus
deriving DecidableEq, Repr

/-- `list_midi_ports()`: prints the available MIDI input port names, or a
message that none were found. -/
def list_midi_ports (ports : List String) : List Event :=
  if ports = [] then
    [Event.print "No MIDI input ports found."]
  else
    Event.print "Available MIDI input ports:" ::
      ports.enum.map fun p =>
        Event.print ("  [" ++ toString p.1 ++ "] " ++ p.2)

/-- The `main()` function.  Branches follow the source in order: `--list`
short-circuits to listing ports; a missing `serial_port` prints help plus a
tip and exits with status 1; a failed serial open prints an error and exits
with status 1; a failed MIDI open prints an error, closes the serial port
and exits with status 1; otherwise the forwarding loop runs and the
`finally` block closes the MIDI input and the serial port.  (Exception text
interpolated into the error prints is not modeled.) -/
def mainRun (args : Args) (env : Env) : Option RunResult :=
  if args.list then
    some { events := list_midi_ports env.midiPortNames
           received := []
           exit := ExitStatus.normal }
  else
    match args.serial_port with
    | none =>
        some { events := [Event.printHelp,
                 Event.print "\nTip: run with --list to see available MIDI ports"]
               received := []
               exit := ExitStatus.exitCode 1 }
    | some sp =>
        if env.serialOk then
          if env.midiOk then
            let midiEvents :=
              match args.midi_port with
              | some name =>
                  [Event.midiOpen name false,
                   Event.print ("MIDI input: " ++ name)]
              | none =>
                  [Event.midiOpen VIRTUAL_PORT_NAME true,
                   Event.print ("Created virtual MIDI port: \"" ++
                     VIRTUAL_PORT_NAME ++ "\""),
                   Event.print "Select this as a MIDI output in your DAW."]
            (runLoop true env.iters).map fun res =>
              { events := Event.serialOpen sp args.baud :: midiEvents ++
                  [Event.print ("Serial output: " ++ sp ++ " @ " ++
                     toString args.baud ++ " baud"),
                   Event.print "Forwarding MIDI... (Ctrl+C to stop)"] ++
                  res.events ++
                  [Event.midiClose, Event.serialClose,
                   Event.print "\nStopped."]
                received := res.received
                exit := match res.exit with
                        | LoopExit.stopped => ExitStatus.normal
                        | LoopExit.exn => ExitStatus.exn }
          else
            some { events := [Event.serialOpen sp args.baud,
                     Event.printErr "Error opening MIDI port",
                     Event.serialClose]
                   received := []
                   exit := ExitStatus.exitCode 1 }
        else
          some { events := [Event.printErr
                   ("Error opening serial port " ++ sp)]
                 received := []
                 exit := ExitStatus.exitCode 1 }

/-- The byte stream written to the serial port during a run: the
concatenation, in trace order, of the payloads of the `serialWrite`
events. -/
def writtenBytes : List Event → List Nat
  | [] => []
  | Event.serialWrite bs :: es => bs ++ writtenBytes es
  | _ :: es => writtenBytes es

/-- The concatenation, in order, of the wire bytes of exactly the non-meta
messages of a message sequence. -/
def wireConcat : List MidiMsg → List Nat
  | [] => []
  | m :: ms => (if m.is_meta then [] else m.bytes) ++ wireConcat ms

/-- Is this event a write to the serial port? -/
def isWrite : Event → Bool
  | Event.serialWrite _ => true
  | _ => false

/-- Is this event a serial-port open? -/
def isSerialOpen : Event → Bool
  | Event.serialOpen _ _ => true
  | _ => false

/-- Is this event a MIDI-input open? -/
def isMidiOpen : Event → Bool
  | Event.midiOpen _ _ => true
  | _ => false

/-- Is this event a plain print to stdout? -/
def isPrint : Event → Bool
  | Event.print _ => true
  | _ => false

/-- Modelled from the spec (MIDI standard terminology the spec relies on):
a MIDI channel message is one whose status byte lies in `0x80`–`0xEF`;
system common, system real-time and meta messages are not channel
messages.  This definition follows the spec's words, for comparison with
what the code forwards. -/
def specChannelMessage (m : MidiMsg) : Bool :=
  match m.bytes with
  | [] => false
  | b :: _ => 128 ≤ b && b ≤ 239

/-! ### Helper lemmas -/

theorem writtenBytes_append (a b : List Event) :
    writtenBytes (a ++ b) = writtenBytes a ++ writtenBytes b := by
  induction a with
  | nil => rfl
  | cons e es ih => cases e <;> simp [writtenBytes, ih]

theorem wireConcat_append (a b : List MidiMsg) :
    wireConcat (a ++ b) = wireConcat a ++ wireConcat b := by
  induction a with
  | nil => rfl
  | cons m ms ih => simp [wireConcat, ih]

theorem batchEvents_eq_map (msgs : List MidiMsg) :
    batchEvents msgs =
      (msgs.filter fun m => !m.is_meta).map fun m => Event.serialWrite m.bytes := by
  induction msgs with
  | nil => rfl
  | cons m ms ih =>
      cases hm : m.is_meta <;> simp [batchEvents, List.filter_cons, hm, ih]

theorem runLoop_false (iters : List LoopIter) :
    runLoop false iters =
      some { events := [], received := [], exit := LoopExit.stopped } := by
  cases iters <;> rfl

/-- Every event the loop emits is a serial write of a forwarded (non-meta)
received message, and every non-meta received message is written. -/
theorem runLoop_events (b : Bool) (iters : List LoopIter) (res : LoopResult)
    (h : runLoop b iters = some res) :
    res.events = (res.received.filter fun m => !m.is_meta).map
      fun m => Event.serialWrite m.bytes := by
  induction iters generalizing b res with
  | nil =>
      cases b
      · rw [runLoop_false] at h
        cases h
        rfl
      · simp [runLoop] at h
  | cons it rest ih =>
      cases b
      · rw [runLoop_false] at h
        cases h
        rfl
      · rw [runLoop] at h
        by_cases hs : it.signalBefore
        · simp [hs] at h
          cases h
          rfl
        · simp [hs] at h
          cases hp : it.poll with
          | error e =>
              rw [hp] at h
              cases h
              rfl
          | ok msgs =>
              rw [hp] at h
              rcases Option.map_eq_some'.mp h with ⟨res', hr, hf⟩
              subst hf
              simp [batchEvents_eq_map, List.filter_append, ih true res' hr]

/-- The byte stream the loop writes equals the concatenation of the wire
bytes of exactly the non-meta messages it received, in order. -/
theorem runLoop_written (b : Bool) (iters : List LoopIter) (res : LoopResult)
    (h : runLoop b iters = some res) :
    writtenBytes res.events = wireConcat res.received := by
  rw [runLoop_events b iters res h]
  induction res.received with
  | nil => rfl
  | cons m ms ih =>
      cases hm : m.is_meta <;>
        simp [List.filter_cons, hm, wireConcat, writtenBytes, ih]

theorem list_midi_ports_prints (ps : List String) (e : Event)
    (he : e ∈ list_midi_ports ps) : isPrint e = true := by
  unfold list_midi_ports at he
  by_cases h : ps = []
  · simp [h] at he
    simp [he, isPrint]
  · simp [h] at he
    rcases he with he | ⟨a, b, _, he⟩
    · simp [he, isPrint]
    · simp [← he, isPrint]

theorem writtenBytes_of_prints (es : List Event)
    (h : ∀ e ∈ es, isPrint e = true) : writtenBytes es = [] := by
  induction es with
  | nil => rfl
  | cons e rest ih =>
      cases e <;> simp_all [writtenBytes, isPrint]

theorem filter_eq_nil_of_prints (p : Event → Bool) (es : List Event)
    (h : ∀ e ∈ es, isPrint e = true)
    (hp : ∀ s, p (Event.print s) = false) : es.filter p = [] := by
  induction es with
  | nil => rfl
  | cons e rest ih =>
      cases e <;> simp_all [List.filter_cons, isPrint, hp]

/-! ### Concrete inputs used by witnesses and counterexamples -/

/-- A note-on channel message (non-meta, status byte `0x90`). -/
def noteOn : MidiMsg := { is_meta := false, bytes := [144, 60, 100] }

/-- A meta message (skipped by the forwarding loop). -/
def metaMsg : MidiMsg := { is_meta := true, bytes := [255, 3, 0] }

/-- A MIDI system real-time clock message: non-meta wire message, but not a
channel message (status byte `0xF8`). -/
def clockMsg : MidiMsg := { is_meta := false, bytes := [248] }

/-- Arguments of a plain run: a serial port, default everything else. -/
def argsT : Args := parseArgs (some "/dev/ttyUSB0") none false none

/-- Environment of a plain run: both opens succeed, one batch containing a
note-on and a meta message arrives, then a signal stops the loop. -/
def envT : Env :=
  { midiPortNames := []
    serialOk := true
    midiOk := true
    iters := [ { signalBefore := false, poll := Except.ok [noteOn, metaMsg] },
               { signalBefore := true, poll := Except.ok [] } ] }

/-- The run of `mainRun argsT envT`, spelled out. -/
def runT : RunResult :=
  { events := [Event.serialOpen "/dev/ttyUSB0" 115200,
      Event.midiOpen "MicroRack MIDI Bridge" true,
      Event.print "Created virtual MIDI port: \"MicroRack MIDI Bridge\"",
      Event.print "Select this as a MIDI output in your DAW.",
      Event.print "Serial output: /dev/ttyUSB0 @ 115200 baud",
      Event.print "Forwarding MIDI... (Ctrl+C to stop)",
      Event.serialWrite [144, 60, 100],
      Event.midiClose, Event.serialClose, Event.print "\nStopped."]
    received := [noteOn, metaMsg]
    exit := ExitStatus.normal }

/-- Environment in which a single system real-time clock message arrives
before a signal stops the loop. -/
def envC2 : Env :=
  { midiPortNames := []
    serialOk := true
    midiOk := true
    iters := [ { signalBefore := false, poll := Except.ok [clockMsg] },
               { signalBefore := true, poll := Except.ok [] } ] }

/-! ### Claims -/

/-- C1: for every run, the byte stream written to the serial port equals
the concatenation, in arrival order, of the wire bytes of exactly the
non-meta messages received on the MIDI input port: meta messages
contribute no bytes, and each non-meta message's bytes appear verbatim. -/
theorem serial_stream_eq_nonmeta_concat (args : Args) (env : Env)
    (r : RunResult) (h : mainRun args env = some r) :
    writtenBytes r.events = wireConcat r.received := by
  unfold mainRun at h
  by_cases hl : args.list
  · simp [hl] at h
    rw [← h]
    simp [wireConcat]
    exact writtenBytes_of_prints _ (list_midi_ports_prints env.midiPortNames)
  · simp [hl] at h
    cases hsp : args.serial_port with
    | none =>
        rw [hsp] at h
        cases h
        rfl
    | some sp =>
        rw [hsp] at h
        by_cases hser : env.serialOk
        · simp [hser] at h
          by_cases hmidi : env.midiOk
          · simp [hmidi] at h
            rcases h with ⟨res, hr, rfl⟩
            cases hmp : args.midi_port <;>
              simp [hmp, writtenBytes, writtenBytes_append,
                runLoop_written true env.iters res hr]
          · simp [hmidi] at h
            cases h
            rfl
        · simp [hser] at h
          cases h
          rfl

/-- Witness for C1 at a concrete run: a note-on followed by a meta message
yields exactly the note-on's bytes on the serial port. -/
theorem serial_stream_eq_nonmeta_concat_witness :
    writtenBytes runT.events = wireConcat runT.received :=
  serial_stream_eq_nonmeta_concat argsT envT runT rfl

/-- C2 counterexample: the claim says every message written to serial is a
MIDI channel message, but in the run `mainRun argsT envC2` the system
real-time clock message (status `0xF8`, non-meta, not a channel message) is
received and its byte is written to the serial port. -/
theorem nonchannel_message_forwarded :
    (mainRun argsT envC2).map (fun r => (writtenBytes r.events, r.received)) =
      some ([248], [clockMsg]) ∧
    clockMsg.is_meta = false ∧ specChannelMessage clockMsg = false :=
  ⟨rfl, rfl, rfl⟩

/-- C2 amended: only non-meta messages are relayed to the serial device —
the serial writes of any run are exactly one write per non-meta received
message, carrying that message's bytes; the program distinguishes only
meta from non-meta (channel, system common and system real-time wire
messages are all forwarded alike). -/
theorem only_nonmeta_messages_forwarded (args : Args) (env : Env)
    (r : RunResult) (h : mainRun args env = some r) :
    r.events.filter isWrite =
      (r.received.filter fun m => !m.is_meta).map
        fun m => Event.serialWrite m.bytes := by
  unfold mainRun at h
  by_cases hl : args.list
  · simp [hl] at h
    rw [← h]
    rw [filter_eq_nil_of_prints isWrite _
      (list_midi_ports_prints env.midiPortNames) (fun s => rfl)]
    rfl
  · simp [hl] at h
    cases hsp : args.serial_port with
    | none =>
        rw [hsp] at h
        cases h
        rfl
    | some sp =>
        rw [hsp] at h
        by_cases hser : env.serialOk
        · simp [hser] at h
          by_cases hmidi : env.midiOk
          · simp [hmidi] at h
            rcases h with ⟨res, hr, rfl⟩
            cases hmp : args.midi_port <;>
              simp [hmp, List.filter_cons, List.filter_append, isWrite,
                runLoop_events true env.iters res hr, List.filter_map,
                Function.comp_def]
          · simp [hmidi] at h
            cases h
            rfl
        · simp [hser] at h
          cases h
          rfl

/-- Witness for amended C2 at a concrete run. -/
theorem only_nonmeta_messages_forwarded_witness :
    runT.events.filter isWrite =
      (runT.received.filter fun m => !m.is_meta).map
        fun m => Event.serialWrite m.bytes :=
  only_nonmeta_messages_forwarded argsT envT runT rfl

/-- Environment in which the first poll raises an exception. -/
def envExn : Env :=
  { midiPortNames := []
    serialOk := true
    midiOk := true
    iters := [ { signalBefore := false, poll := Except.error () } ] }

/-- The run of `mainRun argsT envExn`, spelled out: the loop is left by an
exception, and the `finally` block still closes both resources. -/
def runExn : RunResult :=
  { events := [Event.serialOpen "/dev/ttyUSB0" 115200,
      Event.midiOpen "MicroRack MIDI Bridge" true,
      Event.print "Created virtual MIDI port: \"MicroRack MIDI Bridge\"",
      Event.print "Select this as a MIDI output in your DAW.",
      Event.print "Serial output: /dev/ttyUSB0 @ 115200 baud",
      Event.print "Forwarding MIDI... (Ctrl+C to stop)",
      Event.midiClose, Event.serialClose, Event.print "\nStopped."]
    received := []
    exit := ExitStatus.exn }

/-- C3: whenever the forwarding loop is reached, both the MIDI input port
and the serial port are closed before the program terminates — whether the
loop exited because the running flag was cleared by a shutdown signal or
because an exception was raised inside the loop. -/
theorem resources_closed_on_loop_exit (args : Args) (env : Env)
    (r : RunResult) (sp : String)
    (hl : args.list = false) (hsp : args.serial_port = some sp)
    (hser : env.serialOk = true) (hmidi : env.midiOk = true)
    (h : mainRun args env = some r) :
    Event.midiClose ∈ r.events ∧ Event.serialClose ∈ r.events := by
  unfold mainRun at h
  simp [hl, hsp, hser, hmidi] at h
  rcases h with ⟨res, hr, rfl⟩
  cases hmp : args.midi_port <;> simp [hmp]

/-- Witness for C3 on the exception path: the poll raises, and the trace
still contains both closes. -/
theorem resources_closed_on_loop_exit_witness :
    Event.midiClose ∈ runExn.events ∧ Event.serialClose ∈ runExn.events :=
  resources_closed_on_loop_exit argsT envExn runExn "/dev/ttyUSB0"
    rfl rfl rfl rfl rfl

/-- C4: the SIGINT/SIGTERM handler sets the running flag to false whatever
its arguments are; once running is false the loop begins no iteration,
receives no message and writes no byte, whatever iterations were still
scheduled; and a signal delivered before a scheduled iteration stops the
loop before that iteration runs — stopped is absorbing. -/
theorem stop_clears_running_and_stopped_absorbing (signum : Nat) (b : Bool)
    (it : LoopIter) (iters : List LoopIter) :
    stop signum b = false ∧
    runLoop false iters =
      some { events := [], received := [], exit := LoopExit.stopped } ∧
    (it.signalBefore = true →
      runLoop true (it :: iters) =
        some { events := [], received := [], exit := LoopExit.stopped }) := by
  refine ⟨rfl, runLoop_false iters, fun hs => ?_⟩
  simp [runLoop, hs]

/-- Witness for C4: a signal delivered before a scheduled iteration stops
the loop with nothing received and nothing written. -/
theorem stop_clears_running_and_stopped_absorbing_witness :
    runLoop true [{ signalBefore := true, poll := Except.ok [noteOn] }] =
      some { events := [], received := [], exit := LoopExit.stopped } :=
  (stop_clears_running_and_stopped_absorbing 2 true
      { signalBefore := true, poll := Except.ok [noteOn] } []).2.2 rfl

/-- C5: the baud rate is fixed: `--baud` defaults to 115200 and otherwise
takes the supplied value; in any run every serial open carries exactly
`args.baud`, at most one serial open ever occurs, and on every path that
opens the serial port it is opened exactly once, at startup — no later
operation changes the rate. -/
theorem fixed_baud_rate (args : Args) (env : Env) (r : RunResult)
    (spo mp : Option String) (lf : Bool) (bd : Nat)
    (h : mainRun args env = some r) :
    ((parseArgs spo mp lf none).baud = 115200 ∧
     (parseArgs spo mp lf (some bd)).baud = bd) ∧
    (∀ p b, Event.serialOpen p b ∈ r.events → b = args.baud) ∧
    (r.events.filter isSerialOpen).length ≤ 1 ∧
    (∀ sp, args.list = false → args.serial_port = some sp →
      env.serialOk = true → (r.events.filter isSerialOpen).length = 1) := by
  refine ⟨⟨rfl, rfl⟩, ?_⟩
  unfold mainRun at h
  by_cases hl : args.list
  · simp [hl] at h
    rw [← h]
    refine ⟨?_, ?_, ?_⟩
    · intro p b hb
      have := list_midi_ports_prints _ _ hb
      simp [isPrint] at this
    · rw [filter_eq_nil_of_prints isSerialOpen _
        (list_midi_ports_prints env.midiPortNames) (fun s => rfl)]
      simp
    · intro sp hlf
      rw [hlf] at hl
      simp at hl
  · simp [hl] at h
    cases hsp : args.serial_port with
    | none =>
        rw [hsp] at h
        cases h
        refine ⟨?_, ?_, ?_⟩
        · intro p b hb
          simp at hb
        · simp [List.filter_cons, isSerialOpen]
        · intro sp _ hsp2
          simp at hsp2
    | some sp =>
        rw [hsp] at h
        by_cases hser : env.serialOk
        · simp [hser] at h
          by_cases hmidi : env.midiOk
          · simp [hmidi] at h
            rcases h with ⟨res, hr, rfl⟩
            have hev := runLoop_events true env.iters res hr
            refine ⟨?_, ?_, ?_⟩
            · intro p b hb
              cases hmp : args.midi_port <;>
                rw [hmp] at hb <;>
                simp [hev, List.mem_map] at hb <;>
                exact hb.2
            · cases hmp : args.midi_port <;>
                simp [hmp, List.filter_cons, List.filter_append, isSerialOpen,
                  hev, List.filter_map, Function.comp_def]
            · intro sp2 _ _ _
              cases hmp : args.midi_port <;>
                simp [hmp, List.filter_cons, List.filter_append, isSerialOpen,
                  hev, List.filter_map, Function.comp_def]
          · simp [hmidi] at h
            cases h
            refine ⟨?_, ?_, ?_⟩
            · intro p b hb
              simp [isSerialOpen] at hb
              exact hb.2
            · simp [List.filter_cons, isSerialOpen]
            · intro sp2 _ _ _
              simp [List.filter_cons, isSerialOpen]
        · simp [hser] at h
          cases h
          refine ⟨?_, ?_, ?_⟩
          · intro p b hb
            simp at hb
          · simp [List.filter_cons, isSerialOpen]
          · intro sp2 _ _ hok
            rw [hok] at hser
            simp at hser

/-- Witness for C5: in the concrete plain run the serial port is opened
exactly once, and the defaulted baud is 115200. -/
theorem fixed_baud_rate_witness :
    (runT.events.filter isSerialOpen).length = 1 :=
  (fixed_baud_rate argsT envT runT (some "/dev/ttyUSB0") none false 9600
      rfl).2.2.2 "/dev/ttyUSB0" rfl rfl rfl

/-- Environment in which the serial open succeeds but the MIDI open
fails. -/
def envMF : Env :=
  { midiPortNames := [], serialOk := true, midiOk := false, iters := [] }

/-- The run of `mainRun argsT envMF`, spelled out. -/
def runMF : RunResult :=
  { events := [Event.serialOpen "/dev/ttyUSB0" 115200,
      Event.printErr "Error opening MIDI port", Event.serialClose]
    received := []
    exit := ExitStatus.exitCode 1 }

/-- C6: if the serial port opens successfully but opening the MIDI input
port then fails, the already-opened serial port is closed and the program
exits with status 1; no MIDI input is ever opened on that path. -/
theorem midi_open_failure_closes_serial (args : Args) (env : Env)
    (r : RunResult) (sp : String)
    (hl : args.list = false) (hsp : args.serial_port = some sp)
    (hser : env.serialOk = true) (hmidi : env.midiOk = false)
    (h : mainRun args env = some r) :
    r.exit = ExitStatus.exitCode 1 ∧ Event.serialClose ∈ r.events ∧
    r.events.filter isMidiOpen = [] := by
  unfold mainRun at h
  simp [hl, hsp, hser, hmidi] at h
  rw [← h]
  refine ⟨rfl, by simp, ?_⟩
  simp [List.filter_cons, isMidiOpen]

/-- Witness for C6 at a concrete failed-MIDI-open run. -/
theorem midi_open_failure_closes_serial_witness :
    runMF.exit = ExitStatus.exitCode 1 ∧ Event.serialClose ∈ runMF.events ∧
    runMF.events.filter isMidiOpen = [] :=
  midi_open_failure_closes_serial argsT envMF runMF "/dev/ttyUSB0"
    rfl rfl rfl rfl rfl

/-- C7: no reopening or reconnection ever happens: in any run the serial
port is opened at most once and the MIDI input port is opened at most
once; when the serial open fails no resource is ever opened, and when the
MIDI open fails no MIDI input is ever opened. -/
theorem resources_opened_at_most_once (args : Args) (env : Env)
    (r : RunResult) (h : mainRun args env = some r) :
    (r.events.filter isSerialOpen).length ≤ 1 ∧
    (r.events.filter isMidiOpen).length ≤ 1 ∧
    (env.serialOk = false → r.events.filter isSerialOpen = [] ∧
      r.events.filter isMidiOpen = []) ∧
    (env.midiOk = false → r.events.filter isMidiOpen = []) := by
  unfold mainRun at h
  by_cases hl : args.list
  · simp [hl] at h
    rw [← h]
    rw [filter_eq_nil_of_prints isSerialOpen _
      (list_midi_ports_prints env.midiPortNames) (fun s => rfl)]
    rw [filter_eq_nil_of_prints isMidiOpen _
      (list_midi_ports_prints env.midiPortNames) (fun s => rfl)]
    simp
  · simp [hl] at h
    cases hsp : args.serial_port with
    | none =>
        rw [hsp] at h
        cases h
        refine ⟨by simp [List.filter_cons, isSerialOpen], ?_, ?_, ?_⟩ <;>
          simp [List.filter_cons, isSerialOpen, isMidiOpen]
    | some sp =>
        rw [hsp] at h
        by_cases hser : env.serialOk
        · simp [hser] at h
          by_cases hmidi : env.midiOk
          · simp [hmidi] at h
            rcases h with ⟨res, hr, rfl⟩
            have hev := runLoop_events true env.iters res hr
            refine ⟨?_, ?_, ?_, ?_⟩
            · cases hmp : args.midi_port <;>
                simp [hmp, List.filter_cons, List.filter_append, isSerialOpen,
                  hev, List.filter_map, Function.comp_def]
            · cases hmp : args.midi_port <;>
                simp [hmp, List.filter_cons, List.filter_append, isMidiOpen,
                  hev, List.filter_map, Function.comp_def]
            · intro hsf
              rw [hsf] at hser
              simp at hser
            · intro hmf
              rw [hmf] at hmidi
              simp at hmidi
          · simp [hmidi] at h
            cases h
            refine ⟨?_, ?_, ?_, ?_⟩
            · simp [List.filter_cons, isSerialOpen]
            · simp [List.filter_cons, isSerialOpen, isMidiOpen]
            · intro hsf
              rw [hsf] at hser
              simp at hser
            · intro _
              simp [List.filter_cons, isSerialOpen, isMidiOpen]
        · simp [hser] at h
          cases h
          refine ⟨?_, ?_, ?_, ?_⟩ <;>
            simp [List.filter_cons, isSerialOpen, isMidiOpen]

/-- Witness for C7 at a concrete plain run. -/
theorem resources_opened_at_most_once_witness :
    (runT.events.filter isSerialOpen).length ≤ 1 ∧
    (runT.events.filter isMidiOpen).length ≤ 1 ∧
    (envT.serialOk = false → runT.events.filter isSerialOpen = [] ∧
      runT.events.filter isMidiOpen = []) ∧
    (envT.midiOk = false → runT.events.filter isMidiOpen = []) :=
  resources_opened_at_most_once argsT envT runT rfl

/-- C8: when `--midi-port` is supplied the program opens that existing
port (not a virtual one); when it is absent it creates a virtual MIDI
input port named by `VIRTUAL_PORT_NAME`; in either case exactly one MIDI
input is opened for forwarding. -/
theorem midi_input_selection (args : Args) (env : Env) (r : RunResult)
    (sp : String)
    (hl : args.list = false) (hsp : args.serial_port = some sp)
    (hser : env.serialOk = true) (hmidi : env.midiOk = true)
    (h : mainRun args env = some r) :
    (∀ name, args.midi_port = some name →
       Event.midiOpen name false ∈ r.events) ∧
    (args.midi_port = none →
       Event.midiOpen VIRTUAL_PORT_NAME true ∈ r.events) ∧
    (r.events.filter isMidiOpen).length = 1 := by
  unfold mainRun at h
  simp [hl, hsp, hser, hmidi] at h
  rcases h with ⟨res, hr, rfl⟩
  have hev := runLoop_events true env.iters res hr
  refine ⟨?_, ?_, ?_⟩
  · intro name hname
    simp [hname]
  · intro hname
    simp [hname]
  · cases hmp : args.midi_port <;>
      simp [hmp, List.filter_cons, List.filter_append, isMidiOpen,
        hev, List.filter_map, Function.comp_def]

/-- Witness for C8: the plain run (no `--midi-port`) opens exactly the
virtual port. -/
theorem midi_input_selection_witness :
    Event.midiOpen VIRTUAL_PORT_NAME true ∈ runT.events :=
  (midi_input_selection argsT envT runT "/dev/ttyUSB0"
      rfl rfl rfl rfl rfl).2.1 rfl

/-- Arguments with `--list` set (and a serial port also given, which is
ignored). -/
def argsList : Args := parseArgs (some "/dev/ttyUSB0") none true none

/-- Arguments with neither a serial port nor `--list`. -/
def argsNo : Args := parseArgs none none false none

/-- C9: with `--list`, the program only prints the available MIDI input
ports (or a not-found message when there are none) and returns normally —
regardless of the other arguments it opens neither the serial port nor any
MIDI port and writes nothing to serial. -/
theorem list_mode_only_prints (args : Args) (env : Env)
    (hl : args.list = true) :
    mainRun args env =
      some { events := list_midi_ports env.midiPortNames
             received := []
             exit := ExitStatus.normal } ∧
    (∀ e ∈ list_midi_ports env.midiPortNames, isPrint e = true) ∧
    (list_midi_ports env.midiPortNames).filter
      (fun e => isSerialOpen e || isMidiOpen e || isWrite e) = [] ∧
    writtenBytes (list_midi_ports env.midiPortNames) = [] ∧
    (env.midiPortNames = [] →
      list_midi_ports env.midiPortNames =
        [Event.print "No MIDI input ports found."]) := by
  refine ⟨?_, list_midi_ports_prints env.midiPortNames, ?_, ?_, ?_⟩
  · unfold mainRun
    simp [hl]
  · exact filter_eq_nil_of_prints _ _
      (list_midi_ports_prints env.midiPortNames) (fun s => rfl)
  · exact writtenBytes_of_prints _ (list_midi_ports_prints env.midiPortNames)
  · intro hps
    simp [list_midi_ports, hps]

/-- Witness for C9 at concrete arguments carrying both `--list` and a
serial port: the run lists ports (here: none found) and returns
normally. -/
theorem list_mode_only_prints_witness :
    mainRun argsList envT =
      some { events := list_midi_ports envT.midiPortNames
             received := []
             exit := ExitStatus.normal } ∧
    list_midi_ports envT.midiPortNames =
      [Event.print "No MIDI input ports found."] :=
  ⟨(list_mode_only_prints argsList envT rfl).1,
   (list_mode_only_prints argsList envT rfl).2.2.2.2 rfl⟩

/-- C10: without a serial-port argument and without `--list`, the program
prints the usage help plus a tip and exits with status 1, having opened no
serial or MIDI resource and written nothing. -/
theorem missing_serial_port_exits (args : Args) (env : Env)
    (hl : args.list = false) (hsp : args.serial_port = none) :
    mainRun args env =
      some { events := [Event.printHelp,
               Event.print "\nTip: run with --list to see available MIDI ports"]
             received := []
             exit := ExitStatus.exitCode 1 } ∧
    ([Event.printHelp,
      Event.print "\nTip: run with --list to see available MIDI ports"].filter
        (fun e => isSerialOpen e || isMidiOpen e || isWrite e) = []) := by
  refine ⟨?_, rfl⟩
  unfold mainRun
  simp [hl, hsp]

/-- Witness for C10 at concrete arguments with no serial port. -/
theorem missing_serial_port_exits_witness :
    mainRun argsNo envT =
      some { events := [Event.printHelp,
               Event.print "\nTip: run with --list to see available MIDI ports"]
             received := []
             exit := ExitStatus.exitCode 1 } :=
  (missing_serial_port_exits argsNo envT rfl rfl).1
